import Mathlib

/-!
Verification of the reaction decision-and-dispatch pipeline of the
Telegram auto-reaction bot (backend/LastPerson07).

Shallow embedding conventions:
  * MongoDB documents become Lean structures; a field read through
    Python's `dict.get(key, default)` is modelled as an `Option` field
    read through `Option.getD`.
  * Machine wall-clock timestamps become abstract `Int` seconds.
  * Fallible operations (Python exceptions) return `Option` / branch on
    an `Except` value standing for the outcome of a database read.
  * Randomness (`random.choice`, `secrets.randbelow(1000)`) is made
    explicit as a natural-number oracle argument.
-/

namespace ReactionBot

/-- Default emoji list used by `chat_config.get("emojis", [...])` in
`TelegramBot._select_emoji` (reactions.py). -/
def defaultEmojis : List String := ["❤️", "🔥", "👍"]

/-- A chat configuration document from the `chats` collection, restricted to
the fields read by the reaction pipeline.  Fields accessed via `.get` with a
default are `Option`-valued. -/
structure ChatConfig where
  chat_id : Int
  enabled : Option Bool
  reaction_mode : Option String
  emojis : Option (List String)
  last_emoji_idx : Option Int
deriving DecidableEq

/-- The `chats` collection viewed as a map from `chat_id` to the stored
configuration document. -/
def Store : Type := Int → Option ChatConfig

/-- Effect of `update_one({"chat_id": cid}, {"$set": {"last_emoji_idx": v}})`
on the `chats` collection: only the matching document's `last_emoji_idx`
field changes. -/
def updateCursor (store : Store) (cid : Int) (v : Int) : Store :=
  fun k => if k = cid then (store k).map (fun c => { c with last_emoji_idx := some v }) else store k

/-- Model of `random.choice(xs)` with the uniform draw made explicit as `rnd`:
returns `xs[rnd % len(xs)]`, and `none` (IndexError) when `xs` is empty. -/
def randomChoice {α : Type} (rnd : Nat) (xs : List α) : Option α :=
  xs.get? (rnd % xs.length)

/-- Embedding of `TelegramBot._select_emoji` (reactions.py lines 301-321).
Returns the selected emoji (`none` models an uncaught exception:
IndexError from `random.choice([])`, or ZeroDivisionError from
`idx % len([])` in sequential mode) together with the resulting state of
the `chats` collection. -/
def select_emoji (rnd : Nat) (chat_config : ChatConfig) (store : Store) :
    Option String × Store :=
  let mode := chat_config.reaction_mode.getD "random"
  let emojis := chat_config.emojis.getD defaultEmojis
  if mode = "random" then
    (randomChoice rnd emojis, store)
  else if mode = "fixed" then
    (some (match emojis with | [] => "❤️" | e :: _ => e), store)
  else if mode = "sequential" then
    if emojis.length = 0 then
      (none, store)
    else
      let last_emoji_idx := chat_config.last_emoji_idx.getD 0
      (emojis.get? (last_emoji_idx.emod emojis.length).toNat,
       updateCursor store chat_config.chat_id ((last_emoji_idx + 1).emod emojis.length))
  else
    (some "❤️", store)

/-- One policy-driven selection for chat `cid`: the configuration is read
fresh from the `chats` collection (as `_handle_reaction` does before each
dispatch) and `_select_emoji` is applied.  A missing configuration means no
selection happens. -/
def selectOnce (rnd : Nat) (store : Store) (cid : Int) : Option String × Store :=
  match store cid with
  | none => (none, store)
  | some cfg => select_emoji rnd cfg store

/-- Performs `n` consecutive (non-concurrent) selections for chat `cid`, returning
the list of selected emojis and the final state of the `chats` collection. -/
def runSequential (cid : Int) : Store → Nat → List (Option String) × Store
  | store, 0 => ([], store)
  | store, n + 1 =>
    let r := selectOnce 0 store cid
    let rest := runSequential cid r.2 n
    (r.1 :: rest.1, rest.2)

/-- Embedding of `exponential_backoff` (utils.py lines 111-115).  The call
`secrets.randbelow(1000)` is made explicit as the argument `k < 1000`, so
`jitter = k / 1000`. -/
def exponential_backoff (attempt : Nat) (base_delay max_delay : ℚ) (k : Nat) : ℚ :=
  min (base_delay * 2 ^ attempt) max_delay + (k : ℚ) / 1000

/-- Outcome of one `app.send_reaction` platform call, as discriminated by
the `except` clauses of `TelegramBot._send_reaction`: success, a pyrogram
`FloodWait` carrying the platform wait (integer seconds), an `RPCError`
with its message, or any other exception. -/
inductive PlatformResult where
  | success : PlatformResult
  | floodWait (w : Nat) : PlatformResult
  | rpcError (msg : String) : PlatformResult
  | other (msg : String) : PlatformResult
deriving DecidableEq

/-- Python `"FLOOD" in str(e).upper()` (reactions.py line 389). -/
def containsFlood (s : String) : Bool :=
  (s.toUpper.splitOn "FLOOD").length != 1

/-- A document inserted into the `reactions` collection by
`TelegramBot._send_reaction` (the wall-clock `timestamp` field is
omitted). -/
structure OutcomeRecord where
  chat_id : Int
  message_id : Int
  emoji : String
  status : String
  error : Option String
  retry_count : Nat
deriving DecidableEq

/-- Observable effects of one dispatch (from a given attempt onward): the
`reactions` documents inserted, in order, and the durations passed to
`asyncio.sleep`, in order. -/
structure DispatchResult where
  records : List OutcomeRecord
  sleeps : List ℚ
deriving DecidableEq

/-- The flood-wait outcome document (reactions.py lines 360-368). -/
def floodRecord (cid mid : Int) (em : String) (w : Nat) (attempt : Nat) : OutcomeRecord :=
  { chat_id := cid, message_id := mid, emoji := em, status := "flood_wait",
    error := some ("FloodWait " ++ toString w ++ "s"), retry_count := attempt }

/-- Embedding of `TelegramBot._send_reaction` (reactions.py lines 323-396).  `oracle a`
is the platform's response to the attempt numbered `a`; `jit a` is the
jitter draw `secrets.randbelow(1000)` used by `exponential_backoff` on that
attempt.  `max_retries` is the hardcoded local `max_retries = 3` and the
flood-wait sleep is `wait_time * 1.5`. -/
def send_reaction (oracle : Nat → PlatformResult) (jit : Nat → Nat)
    (cid mid : Int) (em : String) (attempt : Nat) : DispatchResult :=
  match oracle attempt with
  | .success =>
    { records := [{ chat_id := cid, message_id := mid, emoji := em,
                    status := "success", error := none, retry_count := attempt }],
      sleeps := [] }
  | .floodWait w =>
    if h : attempt < 3 then
      let rest := send_reaction oracle jit cid mid em (attempt + 1)
      { records := floodRecord cid mid em w attempt :: rest.records,
        sleeps := ((w : ℚ) * (3 / 2)) :: rest.sleeps }
    else
      { records := [floodRecord cid mid em w attempt], sleeps := [] }
  | .rpcError msg =>
    let rec0 : OutcomeRecord :=
      { chat_id := cid, message_id := mid, emoji := em, status := "error",
        error := some msg, retry_count := attempt }
    if h : attempt < 3 ∧ containsFlood msg = false then
      let rest := send_reaction oracle jit cid mid em (attempt + 1)
      { records := rec0 :: rest.records,
        sleeps := exponential_backoff attempt 1 60 (jit attempt) :: rest.sleeps }
    else
      { records := [rec0], sleeps := [] }
  | .other _ =>
    { records := [], sleeps := [] }
termination_by 4 - attempt
decreasing_by
  · omega
  · omega

/-- Embedding of `BotSettings` (models.py lines 117-127), restricted to the fields the
spec designates as retry-state-machine parameters, with their pydantic
defaults. -/
structure BotSettings where
  auto_react : Bool
  max_retries : Nat
  retry_delay : Nat
  flood_wait_multiplier : ℚ
deriving DecidableEq

/-- The pydantic defaults of `BotSettings`. -/
def defaultBotSettings : BotSettings :=
  { auto_react := true, max_retries := 3, retry_delay := 60,
    flood_wait_multiplier := 3 / 2 }

/-- A platform result is a flood-wait, or a non-rate-limit RPC error (one
whose message does not contain "FLOOD"), i.e. an outcome that consumes
retry budget in `_send_reaction`. -/
def retryableFailure (r : PlatformResult) : Prop :=
  (∃ w, r = PlatformResult.floodWait w) ∨
  (∃ m, r = PlatformResult.rpcError m ∧ containsFlood m = false)

/-- Python `round(x, 2)`, modelled over the rationals (round to 2 decimal
places; exact .xx5 ties round up). -/
def round2 (q : ℚ) : ℚ := (((q * 100 + 1 / 2).floor : ℤ) : ℚ) / 100

/-- A document of the `reactions` collection as read by the analytics
engine (timestamps are abstract seconds). -/
structure ReactionDoc where
  chat_id : Int
  emoji : String
  timestamp : Int
  status : String
deriving DecidableEq

/-- A document of the `chats` collection as read by the analytics engine. -/
structure ChatDoc where
  chat_id : Int
  chat_title : Option String
  enabled : Bool
deriving DecidableEq

/-- The state of the document store visible to `AnalyticsEngine`. -/
structure Db where
  reactions : List ReactionDoc
  chats : List ChatDoc
deriving DecidableEq

/-- Mongo `$group` with `$sum: 1`: the distinct keys of `xs` (in first
appearance order), each with its occurrence count. -/
def countBy {α β : Type} [DecidableEq β] (key : α → β) (xs : List α) : List (β × Nat) :=
  (xs.map key).dedup.map (fun b => (b, (xs.filter (fun a => decide (key a = b))).length))

/-- Insert into a list kept in descending order of `key` (Mongo
`$sort: {count: -1}`). -/
def insertDescBy {α : Type} (key : α → Nat) (a : α) : List α → List α
  | [] => [a]
  | b :: bs => if key b < key a then a :: b :: bs else b :: insertDescBy key a bs

/-- Sort descending by `key` (Mongo `$sort: {count: -1}`). -/
def sortDescBy {α : Type} (key : α → Nat) : List α → List α
  | [] => []
  | a :: as => insertDescBy key a (sortDescBy key as)

/-- Insert into a list kept in ascending order of `key` (Mongo
`$sort: {_id: 1}`). -/
def insertAscBy {α : Type} (key : α → Int) (a : α) : List α → List α
  | [] => [a]
  | b :: bs => if key a < key b then a :: b :: bs else b :: insertAscBy key a bs

/-- Sort ascending by `key` (Mongo `$sort: {_id: 1}`). -/
def sortAscBy {α : Type} (key : α → Int) : List α → List α
  | [] => []
  | a :: as => insertAscBy key a (sortAscBy key as)

/-- Embedding of `AnalyticsEngine.get_total_reactions`: count of `status = "success"`
documents; `0` if the read fails. -/
def get_total_reactions (r : Except Unit Db) : Nat :=
  match r with
  | .ok db => (db.reactions.filter (fun d => d.status == "success")).length
  | .error _ => 0

/-- Embedding of `AnalyticsEngine.get_reactions_per_second(hours)`: successes since
`now - hours*3600`, divided by `hours*3600`, rounded to 2 decimals; `0.0`
if the read fails. -/
def get_reactions_per_second (r : Except Unit Db) (now : Int) (hours : Nat) : ℚ :=
  match r with
  | .ok db =>
    let start := now - (hours : Int) * 3600
    let count := (db.reactions.filter
      (fun d => d.status == "success" && start ≤ d.timestamp)).length
    let seconds := hours * 3600
    if seconds > 0 then round2 ((count : ℚ) / (seconds : ℚ)) else 0
  | .error _ => 0

/-- Embedding of `AnalyticsEngine.get_active_chats`: count of `enabled = True` chat
documents; `0` if the read fails. -/
def get_active_chats (r : Except Unit Db) : Nat :=
  match r with
  | .ok db => (db.chats.filter (fun c => c.enabled)).length
  | .error _ => 0

/-- Embedding of `AnalyticsEngine.get_flood_waits(hours)`: flood-wait documents in the
trailing window; `0` if the read fails. -/
def get_flood_waits (r : Except Unit Db) (now : Int) (hours : Nat) : Nat :=
  match r with
  | .ok db =>
    let start := now - (hours : Int) * 3600
    (db.reactions.filter (fun d => d.status == "flood_wait" && start ≤ d.timestamp)).length
  | .error _ => 0

/-- Embedding of `AnalyticsEngine.get_error_rate(hours)` (analytics.py lines 63-81):
`round(errors / total * 100, 2)` where `total` counts every document in
the window and `errors` counts those with status in
`["error", "flood_wait"]`; `0.0` when the window is empty or the read
fails. -/
def get_error_rate (r : Except Unit Db) (now : Int) (hours : Nat) : ℚ :=
  match r with
  | .ok db =>
    let start := now - (hours : Int) * 3600
    let total := (db.reactions.filter (fun d => start ≤ d.timestamp)).length
    let errors := (db.reactions.filter
      (fun d => (d.status == "error" || d.status == "flood_wait") && start ≤ d.timestamp)).length
    if total > 0 then round2 ((errors : ℚ) / (total : ℚ) * 100) else 0
  | .error _ => 0

/-- Embedding of `AnalyticsEngine.get_emoji_usage(hours)`: per-emoji success counts in
the window, descending, top 20; `{}` if the read fails. -/
def get_emoji_usage (r : Except Unit Db) (now : Int) (hours : Nat) : List (String × Nat) :=
  match r with
  | .ok db =>
    let start := now - (hours : Int) * 3600
    let docs := db.reactions.filter (fun d => d.status == "success" && start ≤ d.timestamp)
    (sortDescBy (fun p => p.2) (countBy (fun d => d.emoji) docs)).take 20
  | .error _ => []

/-- One row of `AnalyticsEngine.get_hourly_stats` (the calendar hour is
identified with `timestamp / 3600`). -/
structure HourlyStat where
  timestamp : Int
  hour : Int
  count : Nat
deriving DecidableEq

/-- Embedding of `AnalyticsEngine.get_hourly_stats(hours)`: success counts grouped by
calendar hour, ascending; `[]` if the read fails. -/
def get_hourly_stats (r : Except Unit Db) (now : Int) (hours : Nat) : List HourlyStat :=
  match r with
  | .ok db =>
    let start := now - (hours : Int) * 3600
    let docs := db.reactions.filter (fun d => d.status == "success" && start ≤ d.timestamp)
    (sortAscBy (fun p => p.1) (countBy (fun d => d.timestamp.ediv 3600) docs)).map
      (fun p => { timestamp := p.1 * 3600, hour := p.1.emod 24, count := p.2 })
  | .error _ => []

/-- The result shape of `AnalyticsEngine.get_chat_stats`. -/
structure ChatStats where
  chat_id : Int
  total_reactions : Nat
  errors : Nat
  error_rate : ℚ
  emoji_usage : List (String × Nat)
deriving DecidableEq

/-- Embedding of `AnalyticsEngine.get_chat_stats(chat_id, days)`: per-chat successes,
errors, error rate over successes+errors, top-10 emoji histogram; the
zeroed record shape if the read fails. -/
def get_chat_stats (r : Except Unit Db) (cid : Int) (now : Int) (days : Nat) : ChatStats :=
  match r with
  | .ok db =>
    let start := now - (days : Int) * 86400
    let succ := (db.reactions.filter
      (fun d => d.chat_id == cid && d.status == "success" && start ≤ d.timestamp)).length
    let errs := (db.reactions.filter
      (fun d => d.chat_id == cid && (d.status == "error" || d.status == "flood_wait")
        && start ≤ d.timestamp)).length
    let docs := db.reactions.filter
      (fun d => d.chat_id == cid && d.status == "success" && start ≤ d.timestamp)
    { chat_id := cid, total_reactions := succ, errors := errs,
      error_rate :=
        if succ + errs > 0 then round2 ((errs : ℚ) / ((succ : ℚ) + (errs : ℚ)) * 100) else 0,
      emoji_usage := (sortDescBy (fun p => p.2) (countBy (fun d => d.emoji) docs)).take 10 }
  | .error _ =>
    { chat_id := cid, total_reactions := 0, errors := 0, error_rate := 0, emoji_usage := [] }

/-- The result shape of `AnalyticsEngine.get_daily_summary` (`date` is the
day-start timestamp). -/
structure DailySummary where
  date : Int
  total_reactions : Nat
  total_attempts : Nat
  errors : Nat
  success_rate : ℚ
  active_chats : Nat
deriving DecidableEq

/-- Embedding of `AnalyticsEngine.get_daily_summary(date)`: counts over one calendar day
`[start, start + 86400)`; the zeroed record shape if the read fails. -/
def get_daily_summary (r : Except Unit Db) (start : Int) : DailySummary :=
  match r with
  | .ok db =>
    let inDay := fun (d : ReactionDoc) => start ≤ d.timestamp && d.timestamp < start + 86400
    let succ := (db.reactions.filter (fun d => d.status == "success" && inDay d)).length
    let attempts := (db.reactions.filter inDay).length
    let errs := (db.reactions.filter
      (fun d => (d.status == "error" || d.status == "flood_wait") && inDay d)).length
    { date := start, total_reactions := succ, total_attempts := attempts, errors := errs,
      success_rate := if attempts > 0 then round2 ((succ : ℚ) / (attempts : ℚ) * 100) else 0,
      active_chats := ((db.reactions.filter inDay).map (fun d => d.chat_id)).dedup.length }
  | .error _ =>
    { date := start, total_reactions := 0, total_attempts := 0, errors := 0,
      success_rate := 0, active_chats := 0 }

/-- Embedding of `AnalyticsEngine.get_top_chats(limit, days)`: top chats by success
volume in the window, each annotated with `chat_title` from the `chats`
collection (`"Unknown"` when absent); `[]` if the read fails. -/
def get_top_chats (r : Except Unit Db) (limit : Nat) (now : Int) (days : Nat) :
    List (Int × String × Nat) :=
  match r with
  | .ok db =>
    let start := now - (days : Int) * 86400
    let docs := db.reactions.filter (fun d => d.status == "success" && start ≤ d.timestamp)
    ((sortDescBy (fun p => p.2) (countBy (fun d => d.chat_id) docs)).take limit).map
      (fun p =>
        (p.1,
         match db.chats.find? (fun c => c.chat_id == p.1) with
         | some c => c.chat_title.getD "Unknown"
         | none => "Unknown",
         p.2))
  | .error _ => []

/-- Spec-side count, following the spec's words: errors in the window. -/
def specErrorsInWindow (docs : List ReactionDoc) (start : Int) : Nat :=
  (docs.filter (fun d => d.status == "error" && start ≤ d.timestamp)).length

/-- Spec-side count, following the spec's words: flood-waits in the window. -/
def specFloodWaitsInWindow (docs : List ReactionDoc) (start : Int) : Nat :=
  (docs.filter (fun d => d.status == "flood_wait" && start ≤ d.timestamp)).length

/-- Spec-side count, following the spec's words: all attempts in the window. -/
def specTotalAttemptsInWindow (docs : List ReactionDoc) (start : Int) : Nat :=
  (docs.filter (fun d => start ≤ d.timestamp)).length

/-- Result of one iteration of `WebSocketManager._broadcast_stats_loop`
(websocket.py lines 119-132): how many times the stats aggregator was
invoked to compute a snapshot, and the `(connection, message-type)` push
attempts made. -/
structure TickResult where
  snapshots : Nat
  pushes : List (Nat × String)
deriving DecidableEq

/-- One tick of `_broadcast_stats_loop`: `if not self.active_connections:
continue` skips the snapshot entirely; otherwise one snapshot is computed
and a `stats_update` message is sent to every active connection. -/
def broadcastTick (conns : List Nat) : TickResult :=
  if conns.isEmpty then
    { snapshots := 0, pushes := [] }
  else
    { snapshots := 1, pushes := conns.map (fun c => (c, "stats_update")) }

/-- Concrete sequential-mode configuration used to instantiate theorems. -/
def wCfgSeq : ChatConfig :=
  { chat_id := 1, enabled := some true, reaction_mode := some "sequential",
    emojis := some ["a", "b", "c"], last_emoji_idx := some 0 }

/-- Concrete one-chat store used to instantiate theorems. -/
def wStoreSeq : Store := fun k => if k = 1 then some wCfgSeq else none

/-- A Bot Settings value configured away from the defaults
(`max_retries = 5`, `flood_wait_multiplier = 2.0`). -/
def settingsFive : BotSettings :=
  { auto_react := true, max_retries := 5, retry_delay := 60, flood_wait_multiplier := 2 }

/-- A 24-hour window with 100 recorded successes and 5 recorded errors. -/
def scenarioDocs : List ReactionDoc :=
  List.replicate 100 { chat_id := 1, emoji := "❤️", timestamp := 0, status := "success" }
    ++ List.replicate 5 { chat_id := 1, emoji := "❤️", timestamp := 0, status := "error" }

end ReactionBot

namespace ReactionBot

/-- C10: emoji selection in `random`, `fixed`, or any unrecognized mode
performs no write to the `chats` collection: the store, including the
`last_emoji_idx` cursor of every chat, is returned unchanged; only
`sequential` mode writes. -/
theorem select_emoji_nonsequential_no_write (rnd : Nat) (cfg : ChatConfig) (store : Store)
    (h : cfg.reaction_mode.getD "random" ≠ "sequential") :
    (select_emoji rnd cfg store).2 = store := by
  unfold select_emoji
  dsimp only
  split_ifs with h1 h2
  · rfl
  · rfl
  · rfl

/-- Witness for C10 at a concrete random-mode configuration. -/
theorem select_emoji_nonsequential_no_write_witness :
    (select_emoji 0
      { chat_id := 1, enabled := some true, reaction_mode := some "random",
        emojis := some ["a"], last_emoji_idx := some 0 }
      (fun _ => none)).2 = (fun _ => none : Store) :=
  select_emoji_nonsequential_no_write 0 _ _ (by decide)

/-- Counterexample to C6 as stated: in `random` mode with an empty emoji
list, selection fails (IndexError from `random.choice([])`, modelled as
`none`) instead of falling back to the default symbol `"❤️"`. -/
theorem random_mode_empty_list_fails :
    (select_emoji 0
      { chat_id := 1, enabled := some true, reaction_mode := some "random",
        emojis := some [], last_emoji_idx := some 0 }
      (fun _ => none)).1 = none
    ∧ (none : Option String) ≠ some "❤️" := by
  exact ⟨rfl, by decide⟩

/-- C6 (amended): with an empty emoji list, `fixed` mode falls back to the
default symbol `"❤️"` but `random` mode fails with no fallback; in `fixed`
mode with a non-empty list, selection always returns the first element,
regardless of the call (`rnd` draw and store are irrelevant). -/
theorem emoji_selection_empty_list_behavior (rnd : Nat) (cfg : ChatConfig) (store : Store) :
    (cfg.reaction_mode = some "random" → cfg.emojis = some [] →
      (select_emoji rnd cfg store).1 = none)
    ∧ (cfg.reaction_mode = some "fixed" → cfg.emojis = some [] →
      (select_emoji rnd cfg store).1 = some "❤️")
    ∧ (∀ e es, cfg.reaction_mode = some "fixed" → cfg.emojis = some (e :: es) →
      (select_emoji rnd cfg store).1 = some e) := by
  refine ⟨fun hm he => ?_, fun hm he => ?_, fun e es hm he => ?_⟩
  · simp [select_emoji, hm, he, randomChoice]
  · simp [select_emoji, hm, he]
  · simp [select_emoji, hm, he]

/-- Witness for the amended C6 at concrete configurations. -/
theorem emoji_selection_empty_list_behavior_witness :
    (select_emoji 0
      { chat_id := 1, enabled := none, reaction_mode := some "random",
        emojis := some [], last_emoji_idx := none } (fun _ => none)).1 = none
    ∧ (select_emoji 0
      { chat_id := 1, enabled := none, reaction_mode := some "fixed",
        emojis := some [], last_emoji_idx := none } (fun _ => none)).1 = some "❤️"
    ∧ (select_emoji 0
      { chat_id := 1, enabled := none, reaction_mode := some "fixed",
        emojis := some ["q", "r"], last_emoji_idx := none } (fun _ => none)).1 = some "q" :=
  ⟨(emoji_selection_empty_list_behavior 0 _ _).1 rfl rfl,
   (emoji_selection_empty_list_behavior 0 _ _).2.1 rfl rfl,
   (emoji_selection_empty_list_behavior 0 _ _).2.2 "q" ["r"] rfl rfl⟩

/-- One sequential-mode selection: reads the cursor, returns the emoji at
`cursor mod N`, and persists `(cursor + 1) mod N` for this chat. -/
theorem seq_step (rnd : Nat) (store : Store) (cid : Int) (cfg : ChatConfig)
    (es : List String) (c : Int)
    (hs : store cid = some cfg) (hid : cfg.chat_id = cid)
    (hm : cfg.reaction_mode = some "sequential") (he : cfg.emojis = some es)
    (hN : 0 < es.length) (hc : cfg.last_emoji_idx = some c) :
    selectOnce rnd store cid =
      (es.get? (c.emod (es.length : Int)).toNat,
       updateCursor store cid ((c + 1).emod (es.length : Int))) := by
  have hlen : ¬ es.length = 0 := by omega
  simp only [selectOnce, hs, select_emoji, hm, he, hid, hc, Option.getD_some]
  simp [hlen]

/-- Reading back the chat after `updateCursor`: only `last_emoji_idx`
changed; every other chat is untouched. -/
theorem updateCursor_read (store : Store) (cid : Int) (cfg : ChatConfig) (v : Int)
    (hs : store cid = some cfg) :
    (updateCursor store cid v) cid = some { cfg with last_emoji_idx := some v }
    ∧ ∀ k, k ≠ cid → (updateCursor store cid v) k = store k := by
  constructor
  · simp [updateCursor, hs]
  · intro k hk
    simp [updateCursor, hk]

/-- Invariant of iterated sequential selection: starting from a stored
cursor `j < N`, `n` selections return `emojis[(j+i) mod N]` in order and
leave the cursor at `(j+n) mod N`. -/
theorem seq_run (cid : Int) (es : List String) (hN : 0 < es.length) :
    ∀ (n : Nat) (store : Store) (cfg : ChatConfig) (j : Nat),
      store cid = some cfg → cfg.chat_id = cid →
      cfg.reaction_mode = some "sequential" → cfg.emojis = some es →
      cfg.last_emoji_idx = some (j : Int) → j < es.length →
      (runSequential cid store n).1
          = (List.range n).map (fun i => es.get? ((j + i) % es.length))
      ∧ (runSequential cid store n).2 cid
          = some { cfg with last_emoji_idx := some (((j + n) % es.length : Nat) : Int) }
  | 0, store, cfg, j, hs, hid, hm, he, hc, hj => by
    have hj0 : (j + 0) % es.length = j := by
      rw [Nat.add_zero, Nat.mod_eq_of_lt hj]
    have hcfg : ({ cfg with last_emoji_idx := some ((j : Nat) : Int) } : ChatConfig) = cfg := by
      cases cfg
      simp_all
    refine ⟨by simp [runSequential], ?_⟩
    show store cid = _
    rw [hj0, hcfg, hs]
  | n + 1, store, cfg, j, hs, hid, hm, he, hc, hj => by
    have hstep := seq_step 0 store cid cfg es (j : Int) hs hid hm he hN hc
    have hcast1 : ((j : Int).emod (es.length : Int)).toNat = j % es.length := by
      rw [show (j : Int).emod (es.length : Int) = (j : Int) % (es.length : Int) from rfl,
        ← Int.natCast_mod, Int.toNat_natCast]
    have hcast2 : ((j : Int) + 1).emod (es.length : Int) = ((((j + 1) % es.length : Nat)) : Int) := by
      rw [show ((j : Int) + 1) = (((j + 1 : Nat)) : Int) by push_cast; ring,
        show ((j + 1 : Nat) : Int).emod (es.length : Int)
            = ((j + 1 : Nat) : Int) % (es.length : Int) from rfl,
        ← Int.natCast_mod]
    have hread := updateCursor_read store cid cfg ((((j + 1) % es.length : Nat)) : Int) hs
    have hih := seq_run cid es hN n (updateCursor store cid ((((j + 1) % es.length : Nat)) : Int))
      { cfg with last_emoji_idx := some ((((j + 1) % es.length : Nat)) : Int) }
      ((j + 1) % es.length) hread.1 hid hm he rfl (Nat.mod_lt _ hN)
    have hrun1 : (runSequential cid store (n + 1)).1
        = (es.get? (j % es.length))
          :: (runSequential cid (updateCursor store cid ((((j + 1) % es.length : Nat)) : Int)) n).1 := by
      rw [runSequential, hstep, hcast1, hcast2]
    have hrun2 : (runSequential cid store (n + 1)).2
        = (runSequential cid (updateCursor store cid ((((j + 1) % es.length : Nat)) : Int)) n).2 := by
      rw [runSequential, hstep, hcast2]
    constructor
    · rw [hrun1, hih.1, List.range_succ_eq_map, List.map_cons, List.map_map]
      have hfun : (fun i => es.get? (((j + 1) % es.length + i) % es.length))
          = ((fun i => es.get? ((j + i) % es.length)) ∘ Nat.succ) := by
        funext i
        simp only [Function.comp_apply, Nat.succ_eq_add_one]
        rw [Nat.mod_add_mod]
        have harg : j + 1 + i = j + (i + 1) := by omega
        rw [harg]
      rw [hfun]
      congr 1
    · have harg : ((j + 1) % es.length + n) % es.length = (j + (n + 1)) % es.length := by
        rw [Nat.mod_add_mod]
        have : j + 1 + n = j + (n + 1) := by omega
        rw [this]
      rw [hrun2, hih.2, harg]

/-- C5: for a sequential-mode policy with `N` emojis and cursor `c`,
selection returns `emojis[c mod N]` and persists the cursor `(c+1) mod N`
back to the store keyed by `chat_id` (all other chats unchanged); the
persisted cursor is always in `[0, N)`; and starting from cursor `0`,
`M` consecutive non-concurrent selections visit indices
`0, 1, ..., N-1, 0, ...` in exact cyclic order. -/
theorem sequential_selection_cycle (rnd : Nat) (store : Store) (cid : Int)
    (cfg : ChatConfig) (es : List String) (c : Int)
    (hs : store cid = some cfg) (hid : cfg.chat_id = cid)
    (hm : cfg.reaction_mode = some "sequential") (he : cfg.emojis = some es)
    (hN : 0 < es.length) (hc : cfg.last_emoji_idx = some c) :
    (selectOnce rnd store cid).1 = es.get? (c.emod (es.length : Int)).toNat
    ∧ (selectOnce rnd store cid).2 cid
        = some { cfg with last_emoji_idx := some ((c + 1).emod (es.length : Int)) }
    ∧ (∀ k, k ≠ cid → (selectOnce rnd store cid).2 k = store k)
    ∧ (0 ≤ (c + 1).emod (es.length : Int) ∧ (c + 1).emod (es.length : Int) < es.length)
    ∧ (c = 0 → ∀ M, (runSequential cid store M).1
        = (List.range M).map (fun i => es.get? (i % es.length)))
    ∧ (c = 0 → ∀ k, ∃ v : Int, (runSequential cid store k).2 cid
        = some { cfg with last_emoji_idx := some v } ∧ 0 ≤ v ∧ v < es.length) := by
  have hstep := seq_step rnd store cid cfg es c hs hid hm he hN hc
  have hlen0 : ((es.length : Int)) ≠ 0 := by
    simp only [ne_eq, Int.natCast_eq_zero]
    omega
  have hlenpos : (0 : Int) < (es.length : Int) := by exact_mod_cast hN
  refine ⟨by rw [hstep], ?_, ?_, ?_, ?_, ?_⟩
  · rw [hstep]
    exact (updateCursor_read store cid cfg _ hs).1
  · intro k hk
    rw [hstep]
    exact (updateCursor_read store cid cfg _ hs).2 k hk
  · exact ⟨Int.emod_nonneg _ hlen0, Int.emod_lt_of_pos _ hlenpos⟩
  · intro hc0 M
    subst hc0
    have := (seq_run cid es hN M store cfg 0 hs hid hm he (by exact_mod_cast hc) hN).1
    simpa using this
  · intro hc0 k
    subst hc0
    have := (seq_run cid es hN k store cfg 0 hs hid hm he (by exact_mod_cast hc) hN).2
    refine ⟨(((0 + k) % es.length : Nat) : Int), this, by positivity, ?_⟩
    exact_mod_cast Nat.mod_lt _ hN

/-- Witness for C5: three emojis, cursor 0, four selections cycle
`a, b, c, a`. -/
theorem sequential_selection_cycle_witness :
    (selectOnce 0 wStoreSeq 1).1 = some "a"
    ∧ (runSequential 1 wStoreSeq 4).1 = [some "a", some "b", some "c", some "a"] := by
  have h := sequential_selection_cycle 0 wStoreSeq 1 wCfgSeq ["a", "b", "c"] 0
    (by simp [wStoreSeq]) rfl rfl rfl (by norm_num) rfl
  constructor
  · exact h.1.trans rfl
  · exact (h.2.2.2.2.1 rfl 4).trans rfl

/-- C4: for every `attempt_number ≥ 0` and jitter draw `k < 1000`, with the
default `base_delay = 1` and `max_delay = 60`, `exponential_backoff` lies
in the half-open interval
`[min(base_delay * 2^attempt, max_delay), min(base_delay * 2^attempt, max_delay) + 1)`. -/
theorem exponential_backoff_bounds (attempt k : Nat) (hk : k < 1000) :
    min ((1 : ℚ) * 2 ^ attempt) 60 ≤ exponential_backoff attempt 1 60 k
    ∧ exponential_backoff attempt 1 60 k < min ((1 : ℚ) * 2 ^ attempt) 60 + 1 := by
  unfold exponential_backoff
  have h0 : (0 : ℚ) ≤ (k : ℚ) / 1000 := by positivity
  have h1 : (k : ℚ) / 1000 < 1 := by
    rw [div_lt_one (by norm_num)]
    exact_mod_cast hk
  constructor
  · linarith
  · linarith

/-- Witness for C4 at `attempt = 3`, `k = 250`. -/
theorem exponential_backoff_bounds_witness :
    min ((1 : ℚ) * 2 ^ 3) 60 ≤ exponential_backoff 3 1 60 250
    ∧ exponential_backoff 3 1 60 250 < min ((1 : ℚ) * 2 ^ 3) 60 + 1 :=
  exponential_backoff_bounds 3 250 (by norm_num)

/-- C1: a dispatch attempt hit by a flood-wait signal with platform wait
`w` appends exactly one outcome record with `status = "flood_wait"` and
the wait duration in the error detail (`"FloodWait {w}s"`), and — if and
only if `attempt < max_retries` (the dispatcher's `max_retries = 3`) —
sleeps exactly `w * 1.5` seconds and retries with the attempt number
incremented by one; otherwise it stops. -/
theorem flood_wait_step (oracle : Nat → PlatformResult) (jit : Nat → Nat)
    (cid mid : Int) (em : String) (attempt w : Nat)
    (h : oracle attempt = PlatformResult.floodWait w) :
    send_reaction oracle jit cid mid em attempt =
      if attempt < 3 then
        { records := floodRecord cid mid em w attempt
            :: (send_reaction oracle jit cid mid em (attempt + 1)).records,
          sleeps := ((w : ℚ) * (3 / 2))
            :: (send_reaction oracle jit cid mid em (attempt + 1)).sleeps }
      else { records := [floodRecord cid mid em w attempt], sleeps := [] } := by
  by_cases hlt : attempt < 3
  · rw [if_pos hlt]
    rw [send_reaction, h]
    simp [hlt]
  · rw [if_neg hlt]
    rw [send_reaction, h]
    simp [hlt]

/-- Witness for C1: first attempt, constant flood-wait of 2 seconds. -/
theorem flood_wait_step_witness :
    send_reaction (fun _ => PlatformResult.floodWait 2) (fun _ => 0) 1 2 "x" 0 =
      if 0 < 3 then
        { records := floodRecord 1 2 "x" 2 0
            :: (send_reaction (fun _ => PlatformResult.floodWait 2) (fun _ => 0) 1 2 "x" 1).records,
          sleeps := ((2 : ℚ) * (3 / 2))
            :: (send_reaction (fun _ => PlatformResult.floodWait 2) (fun _ => 0) 1 2 "x" 1).sleeps }
      else { records := [floodRecord 1 2 "x" 2 0], sleeps := [] } :=
  flood_wait_step (fun _ => PlatformResult.floodWait 2) (fun _ => 0) 1 2 "x" 0 2 rfl

/-- A retry-budget-consuming failure appends exactly one record carrying
the current attempt number, followed by the records of the next attempt
when the budget allows, and nothing more otherwise. -/
theorem retryable_step (oracle : Nat → PlatformResult) (jit : Nat → Nat)
    (cid mid : Int) (em : String) (a : Nat)
    (h : retryableFailure (oracle a)) :
    ∃ s e, (send_reaction oracle jit cid mid em a).records
      = { chat_id := cid, message_id := mid, emoji := em, status := s,
          error := e, retry_count := a }
        :: (if a < 3 then (send_reaction oracle jit cid mid em (a + 1)).records else []) := by
  rcases h with ⟨w, hw⟩ | ⟨m, hm, hf⟩
  · by_cases hlt : a < 3
    · refine ⟨"flood_wait", some ("FloodWait " ++ toString w ++ "s"), ?_⟩
      rw [if_pos hlt, send_reaction, hw]
      simp [hlt, floodRecord]
    · refine ⟨"flood_wait", some ("FloodWait " ++ toString w ++ "s"), ?_⟩
      rw [if_neg hlt, send_reaction, hw]
      simp [hlt, floodRecord]
  · by_cases hlt : a < 3
    · refine ⟨"error", some m, ?_⟩
      rw [if_pos hlt, send_reaction, hm]
      simp [hlt, hf]
    · refine ⟨"error", some m, ?_⟩
      rw [if_neg hlt, send_reaction, hm]
      simp [hlt, hf]

/-- C2: when every attempt up to attempt number `max_retries = 3` fails
with a flood-wait or a non-rate-limit error, the retry recursion stops
after the attempt numbered `3`: exactly `3 + 1` outcome records exist for
the message, carrying attempt numbers `0, 1, 2, 3`. -/
theorem retry_exhaustion_records (oracle : Nat → PlatformResult) (jit : Nat → Nat)
    (cid mid : Int) (em : String)
    (h : ∀ i, i ≤ 3 → retryableFailure (oracle i)) :
    (send_reaction oracle jit cid mid em 0).records.length = 3 + 1
    ∧ (send_reaction oracle jit cid mid em 0).records.map (fun r => r.retry_count)
        = [0, 1, 2, 3] := by
  obtain ⟨s3, e3, h3⟩ := retryable_step oracle jit cid mid em 3 (h 3 (by omega))
  obtain ⟨s2, e2, h2⟩ := retryable_step oracle jit cid mid em 2 (h 2 (by omega))
  obtain ⟨s1, e1, h1⟩ := retryable_step oracle jit cid mid em 1 (h 1 (by omega))
  obtain ⟨s0, e0, h0⟩ := retryable_step oracle jit cid mid em 0 (h 0 (by omega))
  rw [if_neg (by omega)] at h3
  rw [if_pos (by omega)] at h2 h1 h0
  rw [h3] at h2
  rw [h2] at h1
  rw [h1] at h0
  rw [h0]
  constructor
  · rfl
  · rfl

/-- Witness for C2: every attempt receives a flood-wait of 1 second. -/
theorem retry_exhaustion_records_witness :
    (send_reaction (fun _ => PlatformResult.floodWait 1) (fun _ => 0) 1 2 "x" 0).records.length
      = 3 + 1
    ∧ (send_reaction (fun _ => PlatformResult.floodWait 1) (fun _ => 0) 1 2 "x" 0).records.map
        (fun r => r.retry_count) = [0, 1, 2, 3] :=
  retry_exhaustion_records (fun _ => PlatformResult.floodWait 1) (fun _ => 0) 1 2 "x"
    (fun _ _ => Or.inl ⟨1, rfl⟩)

/-- Counterexample to C3 as stated: with Bot Settings carrying
`max_retries = 5` and `flood_wait_multiplier = 2.0`, a dispatch whose
every attempt is a 2-second flood-wait still stops after 4 records (the
hardcoded cap 3), not `5 + 1`, and its first sleep is `3 = 2 * 1.5`
seconds, not `2 * 2.0`: the dispatcher does not consult Bot Settings. -/
theorem retry_cap_ignores_settings :
    settingsFive.max_retries = 5
    ∧ (send_reaction (fun _ => PlatformResult.floodWait 2) (fun _ => 0) 1 2 "x" 0).records.length
        = 4
    ∧ (send_reaction (fun _ => PlatformResult.floodWait 2) (fun _ => 0) 1 2 "x" 0).records.length
        ≠ settingsFive.max_retries + 1
    ∧ (send_reaction (fun _ => PlatformResult.floodWait 2) (fun _ => 0) 1 2 "x" 0).sleeps.head?
        = some 3
    ∧ ((3 : ℚ) ≠ (2 : ℚ) * settingsFive.flood_wait_multiplier) := by
  have hlen : (send_reaction (fun _ => PlatformResult.floodWait 2) (fun _ => 0) 1 2 "x" 0).records.length = 4 := by
    rw [send_reaction]
    rw [send_reaction]
    rw [send_reaction]
    rw [send_reaction]
    simp
  have hsl : (send_reaction (fun _ => PlatformResult.floodWait 2) (fun _ => 0) 1 2 "x" 0).sleeps.head?
      = some 3 := by
    rw [send_reaction]
    simp
    norm_num
  refine ⟨rfl, hlen, ?_, hsl, by norm_num [settingsFive]⟩
  rw [hlen]
  norm_num [settingsFive]

/-- C3 (amended): the retry state machine's parameters are hardcoded in
the dispatcher — the retry cap is the local constant `max_retries = 3` and
the flood-wait sleep factor is the literal `1.5` — which coincide with the
Bot Settings defaults (`max_retries = 3`, `flood_wait_multiplier = 1.5`)
but are not read from Bot Settings: every all-flood-wait dispatch produces
`3 + 1` records and three sleeps of exactly `w * 1.5`, whatever the stored
settings values are. -/
theorem retry_parameters_hardcoded (w : Nat) (cid mid : Int) (em : String) (jit : Nat → Nat) :
    defaultBotSettings.max_retries = 3
    ∧ defaultBotSettings.flood_wait_multiplier = 3 / 2
    ∧ (send_reaction (fun _ => PlatformResult.floodWait w) jit cid mid em 0).records.length
        = 3 + 1
    ∧ (send_reaction (fun _ => PlatformResult.floodWait w) jit cid mid em 0).sleeps
        = List.replicate 3 ((w : ℚ) * (3 / 2)) := by
  refine ⟨rfl, rfl, ?_, ?_⟩
  · rw [send_reaction]
    rw [send_reaction]
    rw [send_reaction]
    rw [send_reaction]
    simp
  · rw [send_reaction]
    rw [send_reaction]
    rw [send_reaction]
    rw [send_reaction]
    simp [List.replicate]

/-- Counting documents with status in `["error", "flood_wait"]` inside the
window equals the error count plus the flood-wait count. -/
theorem filter_error_or_flood_length (docs : List ReactionDoc) (start : Int) :
    (docs.filter
      (fun d => (d.status == "error" || d.status == "flood_wait") && start ≤ d.timestamp)).length
      = specErrorsInWindow docs start + specFloodWaitsInWindow docs start := by
  induction docs with
  | nil => rfl
  | cons d ds ih =>
    unfold specErrorsInWindow specFloodWaitsInWindow at ih ⊢
    by_cases h1 : d.status = "error" <;>
      by_cases h2 : d.status = "flood_wait" <;>
        by_cases h3 : start ≤ d.timestamp <;>
          simp_all [List.filter_cons] <;> omega

/-- The error rate computed on a successful read, expressed through the
spec's window counters. -/
theorem get_error_rate_ok_formula (docs : List ReactionDoc) (chats : List ChatDoc)
    (now : Int) (hours : Nat) :
    get_error_rate (Except.ok { reactions := docs, chats := chats }) now hours
      = if specTotalAttemptsInWindow docs (now - (hours : Int) * 3600) = 0 then 0
        else round2
          (((specErrorsInWindow docs (now - (hours : Int) * 3600)
              + specFloodWaitsInWindow docs (now - (hours : Int) * 3600) : Nat) : ℚ)
            / ((specTotalAttemptsInWindow docs (now - (hours : Int) * 3600) : Nat) : ℚ)
            * 100) := by
  unfold get_error_rate
  dsimp only
  rw [filter_error_or_flood_length]
  unfold specTotalAttemptsInWindow
  by_cases h0 :
      (docs.filter (fun d => decide (now - (hours : Int) * 3600 ≤ d.timestamp))).length = 0
  · rw [if_pos h0, h0]
    norm_num
  · rw [if_neg h0, if_pos (Nat.pos_of_ne_zero h0)]

/-- C7: the aggregator's error rate over any window equals
`round((errors + flood_waits) / total_attempts_in_window * 100, 2)` and is
exactly `0.0` when the window holds no attempts; in particular a 24-hour
window with 100 successes and 5 errors yields `4.76`. -/
theorem error_rate_formula :
    (∀ (docs : List ReactionDoc) (chats : List ChatDoc) (now : Int) (hours : Nat),
      get_error_rate (Except.ok { reactions := docs, chats := chats }) now hours
        = if specTotalAttemptsInWindow docs (now - (hours : Int) * 3600) = 0 then 0
          else round2
            (((specErrorsInWindow docs (now - (hours : Int) * 3600)
                + specFloodWaitsInWindow docs (now - (hours : Int) * 3600) : Nat) : ℚ)
              / ((specTotalAttemptsInWindow docs (now - (hours : Int) * 3600) : Nat) : ℚ)
              * 100))
    ∧ get_error_rate (Except.ok { reactions := scenarioDocs, chats := [] }) 0 24
        = 476 / 100 := by
  refine ⟨get_error_rate_ok_formula, ?_⟩
  rw [get_error_rate_ok_formula]
  have h1 : specErrorsInWindow scenarioDocs (0 - ((24 : Nat) : Int) * 3600) = 5 := by decide
  have h2 : specFloodWaitsInWindow scenarioDocs (0 - ((24 : Nat) : Int) * 3600) = 0 := by decide
  have h3 : specTotalAttemptsInWindow scenarioDocs (0 - ((24 : Nat) : Int) * 3600) = 105 := by
    decide
  rw [h1, h2, h3]
  norm_num [round2, Rat.floor]

/-- C8: every aggregation query of the analytics engine returns its
documented zero-value or empty-collection shape when the underlying read
fails, and never propagates the failure. -/
theorem aggregation_failure_zero_shapes (now start cid : Int) (hours days limit : Nat) :
    get_total_reactions (Except.error ()) = 0
    ∧ get_reactions_per_second (Except.error ()) now hours = 0
    ∧ get_active_chats (Except.error ()) = 0
    ∧ get_flood_waits (Except.error ()) now hours = 0
    ∧ get_error_rate (Except.error ()) now hours = 0
    ∧ get_emoji_usage (Except.error ()) now hours = []
    ∧ get_hourly_stats (Except.error ()) now hours = []
    ∧ get_chat_stats (Except.error ()) cid now days
        = { chat_id := cid, total_reactions := 0, errors := 0, error_rate := 0, emoji_usage := [] }
    ∧ get_daily_summary (Except.error ()) start
        = { date := start, total_reactions := 0, total_attempts := 0, errors := 0,
            success_rate := 0, active_chats := 0 }
    ∧ get_top_chats (Except.error ()) limit now days = [] :=
  ⟨rfl, rfl, rfl, rfl, rfl, rfl, rfl, rfl, rfl, rfl⟩

/-- C9: on a broadcast-loop tick with no active subscribers, no snapshot
is computed (the aggregator is not invoked) and nothing is pushed; with at
least one subscriber, exactly one snapshot is computed and a
`stats_update` push goes to every subscriber. -/
theorem broadcast_tick_gating (conns : List Nat) :
    ((broadcastTick conns).snapshots = if conns.isEmpty then 0 else 1)
    ∧ ((broadcastTick conns).pushes
        = if conns.isEmpty then [] else conns.map (fun c => (c, "stats_update")))
    ∧ (∀ c ∈ conns, (c, "stats_update") ∈ (broadcastTick conns).pushes) := by
  by_cases h : conns.isEmpty
  · refine ⟨by simp [broadcastTick, h], by simp [broadcastTick, h], ?_⟩
    intro c hc
    rw [List.isEmpty_iff] at h
    subst h
    simp at hc
  · refine ⟨by simp [broadcastTick, h], by simp [broadcastTick, h], ?_⟩
    intro c hc
    simp only [broadcastTick, h, if_false]
    exact List.mem_map_of_mem _ hc

/-- Witness for C9 at an empty and a one-element subscriber set. -/
theorem broadcast_tick_gating_witness :
    (broadcastTick []).snapshots = 0
    ∧ (broadcastTick []).pushes = []
    ∧ (broadcastTick [7]).snapshots = 1
    ∧ (7, "stats_update") ∈ (broadcastTick [7]).pushes := by
  refine ⟨(broadcast_tick_gating []).1.trans rfl, (broadcast_tick_gating []).2.1.trans rfl,
    (broadcast_tick_gating [7]).1.trans rfl, (broadcast_tick_gating [7]).2.2 7 (by simp)⟩

end ReactionBot
